import Mathlib

/-!
Verification development for the Water Reminder utility (`src/main.py`).

The program is shallowly embedded: Python times-of-day are modelled as
naturals (seconds since midnight, so a parsed `HH:MM` value is a multiple
of 60), absolute timestamps as integers (seconds), ISO-8601 timestamp
strings as their integer timestamp, and the host notification facility as
an `Except String Unit` argument (`.ok` = the call returned, `.error e` =
the call raised exception `e`).  Fallible Python code is embedded as
`Except`-returning functions; a raised exception that nothing catches is
an `Except.error` result.
-/

namespace WaterReminder

/-- The in-memory configuration record held in `self.config`
(`main.py` lines 27-35 list the fields). `last_reminder` is `none` for the
JSON `null` default and `some ts` for a stored ISO timestamp, modelled by
its integer value in seconds. -/
structure Config where
  interval_minutes : Int
  start_time : String
  end_time : String
  message : String
  title : String
  sound_enabled : Bool
  last_reminder : Option Int
deriving DecidableEq, Repr

/-- The hard-coded `default_config` dict of `load_config`
(`main.py` lines 27-35), at the engine layer. -/
def defaultConfig : Config :=
  { interval_minutes := 60
    start_time := "08:00"
    end_time := "22:00"
    message := "💧 Time to drink water! Stay hydrated! 💧"
    title := "Water Reminder"
    sound_enabled := true
    last_reminder := none }

/-- Numeric value of a decimal digit character. -/
def digitVal (c : Char) : Nat := c.toNat - 48

/-- Greedy match of one or two leading decimal digits, returning the value
and the remaining characters; `none` if the first character is not a
digit.  This is the field-matching behaviour of `strptime` for the `%H`
and `%M` directives (one or two digits, longest match first; a two-digit
match whose value is out of range makes the whole parse fail, exactly as
the backtracking alternatives of the `strptime` regex do on a full-string
match). -/
def digits2 : List Char → Option (Nat × List Char)
  | [] => none
  | c1 :: rest =>
    if c1.isDigit then
      match rest with
      | c2 :: rest2 =>
        if c2.isDigit then some (10 * digitVal c1 + digitVal c2, rest2)
        else some (digitVal c1, rest)
      | [] => some (digitVal c1, [])
    else none

/-- `datetime.strptime(s, "%H:%M").time()` (`main.py` lines 70-71),
returned as minutes since midnight; `none` when `strptime` raises
`ValueError` (no match, out-of-range field, or trailing characters). -/
def parseHM (s : String) : Option Nat :=
  match digits2 s.toList with
  | some (h, rest) =>
    match rest with
    | c :: rest2 =>
      if c = ':' then
        match digits2 rest2 with
        | some (m, []) => if h ≤ 23 ∧ m ≤ 59 then some (60 * h + m) else none
        | _ => none
      else none
    | [] => none
  | none => none

/-- `is_within_active_hours` (`main.py` lines 67-73): parse the configured
`start_time` and `end_time` with `strptime "%H:%M"` and compare
`start_time <= now <= end_time` on times of day.  `nowTod` is the current
time of day in seconds since midnight; a parsed `HH:MM` time is the
multiple-of-60 value `60 * minutes`.  A `ValueError` from either
`strptime` call propagates to the caller, embedded as `.error ()`. -/
def is_within_active_hours (c : Config) (nowTod : Nat) : Except Unit Bool :=
  match parseHM c.start_time, parseHM c.end_time with
  | some s, some e => .ok (decide (60 * s ≤ nowTod ∧ nowTod ≤ 60 * e))
  | _, _ => .error ()

/-- The reminder-due computation written at `main.py` lines 246-253
(the statements following the `return` of `get_status_info`; `main.py`
line 309 invokes it as `check_reminder_due`): due when `last_reminder` is
absent, otherwise when the elapsed seconds since it reach
`interval_minutes * 60`. -/
def check_reminder_due (c : Config) (nowTs : Int) : Bool :=
  match c.last_reminder with
  | none => true
  | some t => decide (nowTs - t ≥ c.interval_minutes * 60)

/-- `send_notification` (`main.py` lines 52-65): call the notification
facility; on normal return print a confirmation and return `True`; on any
exception `e` print an error line mentioning `e` and return `False`.  The
result is the returned boolean paired with the line printed, so
non-propagation of the exception is the totality of this function. -/
def send_notification (facility : Except String Unit) : Bool × String :=
  match facility with
  | .ok _ => (true, "Notification sent")
  | .error e => (false, "Error sending notification: " ++ e)

/-- Whether the class `WaterReminder` defines a given method: its `def`
statements are at `main.py` lines 25, 47, 52, 67, 75, 94, 108, 171, 220,
231, 255.  Neither `check_reminder_due` (its intended body is stranded
after the `return` at line 244) nor `show_detailed_status` (called at
line 369) is among them, so attribute lookup of either raises
`AttributeError`. -/
def classMethods : List String :=
  ["load_config", "save_config", "send_notification",
   "is_within_active_hours", "run_continuous",
   "create_task_scheduler_batch", "create_task_scheduler_xml",
   "setup_task_scheduler", "check_task_scheduler_status",
   "get_status_info", "configure"]

/-- Outcomes of one top-level flow: normal completion carrying a value, or
an uncaught Python exception by name. -/
inductive PyOutcome (α : Type) where
  | ok (a : α)
  | raised (exc : String)
deriving DecidableEq, Repr

/-- The `--notify` flow (`main.py` lines 307-312): evaluate
`reminder.is_within_active_hours() and reminder.check_reminder_due()`.
The conjunction short-circuits, so when the window check is `False`
nothing else happens; when it is `True`, the attribute lookup
`reminder.check_reminder_due` runs next and raises `AttributeError`
because the class defines no such method (see `classMethods`), so the
send at line 310 is never reached.  A `ValueError` from the time parse
also propagates.  The result carries the final config. -/
def notifyMode (c : Config) (nowTod : Nat) : PyOutcome Config :=
  match is_within_active_hours c nowTod with
  | .error _ => .raised "ValueError"
  | .ok false => .ok c
  | .ok true =>
    if classMethods.contains "check_reminder_due" then .ok c
    else .raised "AttributeError"

/-- One iteration of the `while True` body of `run_continuous`
(`main.py` lines 83-89): if within the active window, call
`send_notification` (its boolean result is discarded, line 85), then
unconditionally set `last_reminder` to the current time and save
(lines 86-87); outside the window do nothing.  `nowTod` is the time of
day used by the window check, `nowTs` the timestamp stored by
`datetime.now().isoformat()`.  A parse error from the window check
propagates (uncaught: the `try` at line 82 only catches
`KeyboardInterrupt`). -/
def continuousStep (c : Config) (nowTod : Nat) (nowTs : Int)
    (facility : Except String Unit) : PyOutcome Config :=
  match is_within_active_hours c nowTod with
  | .error _ => .raised "ValueError"
  | .ok true =>
    let _sent := send_notification facility
    .ok { c with last_reminder := some nowTs }
  | .ok false => .ok c

/-- The method name each choice of the fully-registered interactive menu
dispatches to (`main.py` lines 361-377); `none` for choice "6" (exit) and
for invalid input, which only print. -/
def menuTargetScheduled (choice : String) : Option String :=
  if choice = "1" then some "send_notification"
  else if choice = "2" then some "configure"
  else if choice = "3" then some "show_detailed_status"
  else if choice = "4" then some "setup_task_scheduler"
  else if choice = "5" then some "run_continuous"
  else none

/-- Whether dispatching a menu choice raises `AttributeError` at the
attribute lookup itself: it does exactly when the choice names a method
the class does not define (see `classMethods`). -/
def menuDispatchRaises (choice : String) : Bool :=
  match menuTargetScheduled choice with
  | some m => !(classMethods.contains m)
  | none => false

/-- Python `str.strip()`: remove leading and trailing whitespace
characters. -/
def pyStrip (s : String) : String :=
  ⟨((s.data.dropWhile Char.isWhitespace).reverse.dropWhile
      Char.isWhitespace).reverse⟩

/-- The start-time step of `configure` (`main.py` lines 270-272): any
input whose strip is non-empty (truthy) is stored verbatim — unvalidated
and unstripped — into `config["start_time"]`; other input keeps the
current value.  `configure` ends with `save_config` (line 284),
persisting the stored string. -/
def configureStartTime (c : Config) (newStart : String) : Config :=
  if pyStrip newStart ≠ "" then { c with start_time := newStart } else c

/-- The end-time step of `configure` (`main.py` lines 274-276), same
shape as the start-time step. -/
def configureEndTime (c : Config) (newEnd : String) : Config :=
  if pyStrip newEnd ≠ "" then { c with end_time := newEnd } else c

/-! ### The JSON config store (`load_config` / `save_config`) -/

/-- JSON values as they occur in the settings file: the documented fields
hold null, booleans, numbers and strings. -/
inductive JVal where
  | null
  | bool (b : Bool)
  | num (n : Int)
  | str (s : String)
deriving DecidableEq, Repr

/-- A Python dict as an association list with the dict's key order. -/
abbrev JObj := List (String × JVal)

/-- The `default_config` dict literal of `load_config`
(`main.py` lines 27-35), at the store layer. -/
def defaultJson : JObj :=
  [("interval_minutes", .num 60),
   ("start_time", .str "08:00"),
   ("end_time", .str "22:00"),
   ("message", .str "💧 Time to drink water! Stay hydrated! 💧"),
   ("title", .str "Water Reminder"),
   ("sound_enabled", .bool true),
   ("last_reminder", .null)]

/-- `d[k] = v` on a Python dict: overwrite the value at an existing key in
place, otherwise append the new pair at the end. -/
def setKey (d : JObj) (k : String) (v : JVal) : JObj :=
  if (d.map Prod.fst).contains k then
    d.map (fun kv => if kv.1 = k then (k, v) else kv)
  else d ++ [(k, v)]

/-- `d.update(l)`: assign each pair of `l` into `d`, left to right. -/
def dictUpdate (d : JObj) (l : JObj) : JObj :=
  l.foldl (fun acc kv => setKey acc kv.1 kv.2) d

/-- The on-disk states `load_config` distinguishes (`main.py` lines
37-43): no settings file; the file exists but `open`/read raises; the
contents are not valid JSON (`json.load` raises); or `json.load` yields
an object, given as its key/value pairs (JSON parsing keeps the last of
any duplicated key, so the keys are distinct). -/
inductive DiskState where
  | missing
  | unreadable
  | invalidJson
  | object (l : JObj)
deriving Repr

/-- `load_config` (`main.py` lines 25-45): start from the defaults; when
the file exists, try to parse it and `update` the defaults with the
parsed object; any exception in the `try` is swallowed (`except: pass`)
leaving the defaults.  The function is total — it never raises to the
caller. -/
def load_config (d : DiskState) : JObj :=
  match d with
  | .object l => dictUpdate defaultJson l
  | _ => defaultJson

/-- `save_config` (`main.py` lines 47-50): serialize the full in-memory
config dict to the settings file; the written JSON object has exactly the
dict's pairs, so the resulting on-disk state is that object. -/
def save_config (c : JObj) : DiskState :=
  .object c

/-! ### Scheduler descriptor generation -/

/-- Text of the descriptor up to the `<Interval>PT` opening of the
repetition interval (`main.py` lines 110-120). -/
def xmlHead : String :=
  "<?xml version=\"1.0\" encoding=\"UTF-16\"?>\n<Task version=\"1.4\" xmlns=\"http://schemas.microsoft.com/windows/2004/02/mit/task\">\n  <RegistrationInfo>\n    <Date>2024-01-01T12:00:00</Date>\n    <Author>Water Reminder</Author>\n    <Description>Reminds you to drink water regularly</Description>\n  </RegistrationInfo>\n  <Triggers>\n    <TimeTrigger>\n      <Repetition>\n        <Interval>PT"

/-- Text between the interval value and the start-boundary value
(`main.py` lines 120-123). -/
def xmlMid1 : String :=
  "M</Interval>\n        <StopAtDurationEnd>false</StopAtDurationEnd>\n      </Repetition>\n      <StartBoundary>2024-01-01T"

/-- Text between the start-boundary value and the end-boundary value
(`main.py` lines 123-124). -/
def xmlMid2 : String :=
  ":00</StartBoundary>\n      <EndBoundary>2024-01-01T"

/-- Text between the end-boundary value and the action command
(`main.py` lines 124-158). -/
def xmlMid3 : String :=
  ":00</EndBoundary>\n      <ExecutionTimeLimit>PT1M</ExecutionTimeLimit>\n      <Enabled>true</Enabled>\n    </TimeTrigger>\n  </Triggers>\n  <Principals>\n    <Principal id=\"Author\">\n      <LogonType>InteractiveToken</LogonType>\n      <RunLevel>LeastPrivilege</RunLevel>\n    </Principal>\n  </Principals>\n  <Settings>\n    <MultipleInstancesPolicy>IgnoreNew</MultipleInstancesPolicy>\n    <DisallowStartIfOnBatteries>false</DisallowStartIfOnBatteries>\n    <StopIfGoingOnBatteries>false</StopIfGoingOnBatteries>\n    <AllowHardTerminate>true</AllowHardTerminate>\n    <StartWhenAvailable>false</StartWhenAvailable>\n    <RunOnlyIfNetworkAvailable>false</RunOnlyIfNetworkAvailable>\n    <IdleSettings>\n      <StopOnIdleEnd>true</StopOnIdleEnd>\n      <RestartOnIdle>false</RestartOnIdle>\n    </IdleSettings>\n    <AllowStartOnDemand>true</AllowStartOnDemand>\n    <Enabled>true</Enabled>\n    <Hidden>false</Hidden>\n    <RunOnlyIfIdle>false</RunOnlyIfIdle>\n    <DisallowStartOnRemoteAppSession>false</DisallowStartOnRemoteAppSession>\n    <UseUnifiedSchedulingEngine>true</UseUnifiedSchedulingEngine>\n    <WakeToRun>false</WakeToRun>\n    <ExecutionTimeLimit>PT1M</ExecutionTimeLimit>\n    <Priority>7</Priority>\n  </Settings>\n  <Actions Context=\"Author\">\n    <Exec>\n      <Command>"

/-- Text between the action command and the working directory
(`main.py` lines 158-159). -/
def xmlMid4 : String :=
  "</Command>\n      <WorkingDirectory>"

/-- Closing text of the descriptor (`main.py` lines 159-162). -/
def xmlTail : String :=
  "</WorkingDirectory>\n    </Exec>\n  </Actions>\n</Task>"

/-- The f-string built by `create_task_scheduler_xml`
(`main.py` lines 110-162).  Its holes are `interval_minutes` (rendered by
`str`, here `toString`), `start_time`, `end_time`, the batch path, and
`os.path.dirname(batch_path)`; the host path computation is taken as the
argument `batchDir`. -/
def create_task_scheduler_xml (c : Config) (batchPath batchDir : String) :
    String :=
  xmlHead ++ toString c.interval_minutes ++ xmlMid1 ++ c.start_time ++
    xmlMid2 ++ c.end_time ++ xmlMid3 ++ batchPath ++ xmlMid4 ++
    batchDir ++ xmlTail

/-! ### Association-list lemmas about the dict embedding -/

theorem lookup_eq_none_of_not_mem (l : JObj) (a : String)
    (h : a ∉ l.map Prod.fst) : l.lookup a = none := by
  induction l with
  | nil => rfl
  | cons hd tl ih =>
    obtain ⟨b, v⟩ := hd
    simp only [List.map_cons, List.mem_cons] at h
    push_neg at h
    have hb : (a == b) = false := beq_eq_false_iff_ne.mpr h.1
    simp [List.lookup, hb, ih h.2]

theorem lookup_cons_self {a b : String} (h : a = b) (w : JVal) (tl : JObj) :
    ((b, w) :: tl).lookup a = some w := by
  simp [List.lookup, beq_iff_eq.mpr h]

theorem lookup_cons_ne {a b : String} (h : a ≠ b) (w : JVal) (tl : JObj) :
    ((b, w) :: tl).lookup a = tl.lookup a := by
  simp [List.lookup, beq_eq_false_iff_ne.mpr h]

theorem replace_cons (k : String) (v : JVal) (b : String) (w : JVal)
    (tl : JObj) :
    (((b, w) :: tl).map (fun kv => if kv.1 = k then (k, v) else kv))
      = (if b = k then (k, v) else (b, w))
          :: tl.map (fun kv => if kv.1 = k then (k, v) else kv) := rfl

theorem lookup_replaceAll_self (k : String) (v : JVal) :
    ∀ (d : JObj), (d.map Prod.fst).contains k →
      (d.map (fun kv => if kv.1 = k then (k, v) else kv)).lookup k = some v := by
  intro d
  induction d with
  | nil => intro hc; simp at hc
  | cons hd tl ih =>
    obtain ⟨b, w⟩ := hd
    intro hc
    rw [replace_cons]
    by_cases hb : b = k
    · rw [if_pos hb, lookup_cons_self rfl]
    · rw [if_neg hb, lookup_cons_ne (fun h => hb h.symm)]
      apply ih
      simp only [List.map_cons, List.contains_cons] at hc
      rcases Bool.or_eq_true_iff.mp hc with h1 | h2
      · exact absurd (beq_iff_eq.mp h1).symm hb
      · exact h2

theorem lookup_replaceAll_ne (k : String) (v : JVal) (k' : String)
    (hne : k' ≠ k) :
    ∀ (d : JObj),
      (d.map (fun kv => if kv.1 = k then (k, v) else kv)).lookup k'
        = d.lookup k' := by
  intro d
  induction d with
  | nil => rfl
  | cons hd tl ih =>
    obtain ⟨b, w⟩ := hd
    rw [replace_cons]
    by_cases hb : b = k
    · rw [if_pos hb, lookup_cons_ne hne, lookup_cons_ne (fun h => hne (h.trans hb)), ih]
    · rw [if_neg hb]
      by_cases hkk : k' = b
      · rw [lookup_cons_self hkk, lookup_cons_self hkk]
      · rw [lookup_cons_ne hkk, lookup_cons_ne hkk, ih]

theorem lookup_append_single (d : JObj) (k : String) (v : JVal) (k' : String)
    (hd : d.lookup k' = none) :
    (d ++ [(k, v)]).lookup k' = if k' = k then some v else none := by
  induction d with
  | nil =>
    by_cases hk : k' = k
    · simp [List.lookup, hk]
    · simp [List.lookup, beq_eq_false_iff_ne.mpr hk, hk]
  | cons hd2 tl ih =>
    obtain ⟨b, w⟩ := hd2
    by_cases hb : k' = b
    · simp [List.lookup, hb] at hd
    · have h1 : (k' == b) = false := beq_eq_false_iff_ne.mpr hb
      simp only [List.lookup, h1] at hd
      simp [List.lookup, h1, ih hd]

theorem lookup_setKey (d : JObj) (k : String) (v : JVal) (k' : String) :
    (setKey d k v).lookup k' = if k' = k then some v else d.lookup k' := by
  unfold setKey
  by_cases hc : (d.map Prod.fst).contains k
  · rw [if_pos hc]
    by_cases hk : k' = k
    · rw [hk, if_pos rfl, lookup_replaceAll_self k v d hc]
    · rw [if_neg hk, lookup_replaceAll_ne k v k' hk d]
  · rw [if_neg hc]
    by_cases hk : k' = k
    · have hnone : d.lookup k' = none := by
        apply lookup_eq_none_of_not_mem
        intro hmem
        apply hc
        rw [← hk]
        simpa using hmem
      rw [hk] at hnone ⊢
      rw [lookup_append_single d k v k hnone, if_pos rfl, if_pos rfl]
    · rw [if_neg hk]
      cases hdl : d.lookup k' with
      | none => rw [lookup_append_single d k v k' hdl, if_neg hk]
      | some w =>
        clear hc
        induction d with
        | nil => simp [List.lookup] at hdl
        | cons hd2 tl ih =>
          obtain ⟨b, u⟩ := hd2
          by_cases hb : k' = b
          · rw [lookup_cons_self hb] at hdl
            rw [List.cons_append, lookup_cons_self hb, hdl]
          · rw [lookup_cons_ne hb] at hdl
            rw [List.cons_append, lookup_cons_ne hb]
            exact ih hdl

theorem lookup_dictUpdate (l : JObj) (hnd : (l.map Prod.fst).Nodup) :
    ∀ (d : JObj) (k : String),
      (dictUpdate d l).lookup k
        = ((l.lookup k).orElse fun _ => d.lookup k) := by
  induction l with
  | nil => intro d k; rfl
  | cons hd tl ih =>
    obtain ⟨a, v⟩ := hd
    intro d k
    simp only [List.map_cons, List.nodup_cons] at hnd
    have h1 : dictUpdate d ((a, v) :: tl) = dictUpdate (setKey d a v) tl := rfl
    rw [h1, ih hnd.2]
    by_cases hk : k = a
    · subst hk
      have htl : tl.lookup k = none :=
        lookup_eq_none_of_not_mem tl k hnd.1
      rw [htl, lookup_setKey, if_pos rfl]
      simp [List.lookup, Option.orElse]
    · rw [lookup_setKey, if_neg hk, lookup_cons_ne hk]

/-- Descriptor text strictly before the `<Interval>PT` opening of the
repetition-interval field. -/
def xmlSeg0 : String :=
  "<?xml version=\"1.0\" encoding=\"UTF-16\"?>\n<Task version=\"1.4\" xmlns=\"http://schemas.microsoft.com/windows/2004/02/mit/task\">\n  <RegistrationInfo>\n    <Date>2024-01-01T12:00:00</Date>\n    <Author>Water Reminder</Author>\n    <Description>Reminds you to drink water regularly</Description>\n  </RegistrationInfo>\n  <Triggers>\n    <TimeTrigger>\n      <Repetition>\n        "

/-- Descriptor text strictly between the repetition-interval field and
the start-boundary field. -/
def xmlSeg1 : String :=
  "\n        <StopAtDurationEnd>false</StopAtDurationEnd>\n      </Repetition>\n      "

/-- Descriptor text strictly between the start-boundary field and the
end-boundary field. -/
def xmlSeg2 : String := "\n      "

/-- Descriptor text strictly between the end-boundary field and the
action command value. -/
def xmlSeg3 : String :=
  "\n      <ExecutionTimeLimit>PT1M</ExecutionTimeLimit>\n      <Enabled>true</Enabled>\n    </TimeTrigger>\n  </Triggers>\n  <Principals>\n    <Principal id=\"Author\">\n      <LogonType>InteractiveToken</LogonType>\n      <RunLevel>LeastPrivilege</RunLevel>\n    </Principal>\n  </Principals>\n  <Settings>\n    <MultipleInstancesPolicy>IgnoreNew</MultipleInstancesPolicy>\n    <DisallowStartIfOnBatteries>false</DisallowStartIfOnBatteries>\n    <StopIfGoingOnBatteries>false</StopIfGoingOnBatteries>\n    <AllowHardTerminate>true</AllowHardTerminate>\n    <StartWhenAvailable>false</StartWhenAvailable>\n    <RunOnlyIfNetworkAvailable>false</RunOnlyIfNetworkAvailable>\n    <IdleSettings>\n      <StopOnIdleEnd>true</StopOnIdleEnd>\n      <RestartOnIdle>false</RestartOnIdle>\n    </IdleSettings>\n    <AllowStartOnDemand>true</AllowStartOnDemand>\n    <Enabled>true</Enabled>\n    <Hidden>false</Hidden>\n    <RunOnlyIfIdle>false</RunOnlyIfIdle>\n    <DisallowStartOnRemoteAppSession>false</DisallowStartOnRemoteAppSession>\n    <UseUnifiedSchedulingEngine>true</UseUnifiedSchedulingEngine>\n    <WakeToRun>false</WakeToRun>\n    <ExecutionTimeLimit>PT1M</ExecutionTimeLimit>\n    <Priority>7</Priority>\n  </Settings>\n  <Actions Context=\"Author\">\n    <Exec>\n      <Command>"

/-! ### The claims -/

/-- C1: the claim reads the `--notify` flow as evaluating both the
active-window check and the reminder-due check and, on a successful
send, persisting `last_reminder = now`.  The code cannot do this: for
every configuration and any current time inside the active window, the
`--notify` evaluation raises `AttributeError` (the called method
`check_reminder_due` is never defined — its body is stranded after the
`return` of `get_status_info`), so the send at `main.py` line 310 is
unreachable and no notification is ever sent in this mode. -/
theorem notify_attribute_error (c : Config) (nowTod : Nat)
    (h : is_within_active_hours c nowTod = .ok true) :
    notifyMode c nowTod = .raised "AttributeError" := by
  unfold notifyMode
  rw [h]
  rfl

theorem notify_attribute_error_witness :
    notifyMode defaultConfig 43200 = .raised "AttributeError" :=
  notify_attribute_error defaultConfig 43200 rfl

/-- C2: the claim that every menu dispatch and the `--notify` evaluation
complete without an uncaught exception is false on the code: menu choice
"3" of the fully-registered menu dispatches to `show_detailed_status`,
which the class does not define (`main.py` line 369), raising
`AttributeError`; and the `--notify` evaluation raises `AttributeError`
at `check_reminder_due` whenever the current time is inside the default
active window (`main.py` line 309). -/
theorem menu_notify_uncaught :
    menuDispatchRaises "3" = true
    ∧ menuTargetScheduled "3" = some "show_detailed_status"
    ∧ notifyMode defaultConfig 43200 = .raised "AttributeError" :=
  ⟨by decide, rfl, rfl⟩

/-- C3 counterexample: in continuous mode a failing send does not leave
`last_reminder` unchanged — an in-window iteration with the facility
raising still sets `last_reminder` to the current time (the send result
is discarded at `main.py` line 85), refuting the claim as stated. -/
theorem continuous_failed_send_updates :
    continuousStep defaultConfig 43200 1000 (.error "boom")
      = .ok { defaultConfig with last_reminder := some 1000 }
    ∧ defaultConfig.last_reminder ≠ some 1000 :=
  ⟨rfl, by decide⟩

/-- C3 amended: in continuous mode, every in-window iteration sets and
persists `last_reminder = now` regardless of whether the send succeeded;
in trigger mode `last_reminder` is never changed on any completing path
(the only path that completes without an uncaught exception is the
out-of-window no-op, which performs no send at all). -/
theorem last_reminder_update_by_mode (c : Config) (nowTod : Nat)
    (nowTs : Int) (facility : Except String Unit) :
    (is_within_active_hours c nowTod = .ok true →
      continuousStep c nowTod nowTs facility
        = .ok { c with last_reminder := some nowTs })
    ∧ (∀ c', notifyMode c nowTod = .ok c' → c'.last_reminder = c.last_reminder) := by
  constructor
  · intro h
    unfold continuousStep
    rw [h]
  · intro c' h
    cases hw : is_within_active_hours c nowTod with
    | error u =>
      unfold notifyMode at h
      rw [hw] at h
      simp at h
    | ok b =>
      cases b
      · unfold notifyMode at h
        rw [hw] at h
        simp only [PyOutcome.ok.injEq] at h
        rw [← h]
      · have hra : notifyMode c nowTod = .raised "AttributeError" := by
          unfold notifyMode
          rw [hw]
          rfl
        rw [hra] at h
        simp at h

theorem last_reminder_update_by_mode_witness :
    continuousStep defaultConfig 43200 7 (.ok ())
      = .ok { defaultConfig with last_reminder := some 7 } :=
  (last_reminder_update_by_mode defaultConfig 43200 7 (.ok ())).1 rfl

/-- C4: the reminder-due computation is true when `last_reminder` is
absent, and for a stored timestamp it is true exactly when the elapsed
seconds reach `interval_minutes * 60` (hence false when strictly less);
its inputs are only the config and the current timestamp — the active
window is not consulted. -/
theorem reminder_due_spec (c : Config) (nowTs t : Int) :
    check_reminder_due { c with last_reminder := none } nowTs = true
    ∧ (check_reminder_due { c with last_reminder := some t } nowTs = true
        ↔ c.interval_minutes * 60 ≤ nowTs - t) := by
  refine ⟨rfl, ?_⟩
  simp [check_reminder_due]

/-- C5: when the configured times parse as `s` and `e` (minutes since
midnight), the active-window check returns true exactly when
`start ≤ now ≤ end` with inclusive boundaries, and consequently a window
with `start > end` is false for every current time. -/
theorem active_window_iff (c : Config) (nowTod s e : Nat)
    (hs : parseHM c.start_time = some s) (he : parseHM c.end_time = some e) :
    (is_within_active_hours c nowTod = .ok true
      ↔ (60 * s ≤ nowTod ∧ nowTod ≤ 60 * e))
    ∧ (e < s → is_within_active_hours c nowTod = .ok false) := by
  constructor
  · unfold is_within_active_hours
    rw [hs, he]
    simp
  · intro hlt
    unfold is_within_active_hours
    rw [hs, he]
    simp only [Except.ok.injEq, decide_eq_false_iff_not]
    omega

theorem active_window_iff_witness :
    is_within_active_hours
        { defaultConfig with start_time := "23:00", end_time := "08:00" } 300
      = .ok false :=
  (active_window_iff
      { defaultConfig with start_time := "23:00", end_time := "08:00" }
      300 1380 480 rfl rfl).2 (by decide)

/-- C6: `load_config` is total over every on-disk state (missing,
unreadable, invalid JSON, or a partial JSON object) — the embedding
returns a record in every case, never an error — and every field of the
result is the on-disk value when the key is on disk and the documented
default otherwise. -/
theorem load_config_defaults_overlay (l : JObj)
    (hnd : (l.map Prod.fst).Nodup) :
    load_config .missing = defaultJson
    ∧ load_config .unreadable = defaultJson
    ∧ load_config .invalidJson = defaultJson
    ∧ ∀ k, (load_config (.object l)).lookup k
        = ((l.lookup k).orElse fun _ => defaultJson.lookup k) :=
  ⟨rfl, rfl, rfl, fun k => lookup_dictUpdate l hnd defaultJson k⟩

theorem load_config_defaults_overlay_witness :
    (load_config (.object [("interval_minutes", JVal.num 30)])).lookup
        "start_time"
      = ((([("interval_minutes", JVal.num 30)] : JObj).lookup
            "start_time").orElse fun _ => defaultJson.lookup "start_time") :=
  (load_config_defaults_overlay [("interval_minutes", JVal.num 30)]
    (by decide)).2.2.2 "start_time"

/-- C7: loading after saving a config that contains every documented
field yields the same config: every lookup in the loaded record equals
the lookup in the saved one. -/
theorem save_load_roundtrip (c : JObj) (hnd : (c.map Prod.fst).Nodup)
    (hall : ∀ k ∈ defaultJson.map Prod.fst, (c.lookup k).isSome) :
    ∀ k, (load_config (save_config c)).lookup k = c.lookup k := by
  intro k
  have h1 : load_config (save_config c) = dictUpdate defaultJson c := rfl
  rw [h1, lookup_dictUpdate c hnd defaultJson k]
  cases hck : c.lookup k with
  | some v => rfl
  | none =>
    have hdnone : defaultJson.lookup k = none := by
      by_contra hne
      have hk : k ∈ defaultJson.map Prod.fst := by
        by_contra hnk
        exact hne (lookup_eq_none_of_not_mem defaultJson k hnk)
      have hs := hall k hk
      rw [hck] at hs
      simp at hs
    simpa [Option.orElse] using hdnone

theorem save_load_roundtrip_witness :
    (load_config (save_config defaultJson)).lookup "interval_minutes"
      = defaultJson.lookup "interval_minutes" :=
  save_load_roundtrip defaultJson (by decide) (by decide) "interval_minutes"

/-- C8: the notification send returns true when the facility call
returns, and for every exception raised by the facility it returns
false with the error reported in the printed line — the exception is
never propagated (the embedding is a total function into `Bool`). -/
theorem send_notification_spec (e : String) :
    (send_notification (.ok ())).1 = true
    ∧ (send_notification (.error e)).1 = false
    ∧ (send_notification (.error e)).2
        = "Error sending notification: " ++ e :=
  ⟨rfl, rfl, rfl⟩

set_option maxRecDepth 100000 in
/-- C9: the generated scheduler descriptor contains the configured
`interval_minutes` verbatim inside the repetition `<Interval>` field,
`start_time` verbatim inside the `<StartBoundary>` field, and `end_time`
verbatim inside the `<EndBoundary>` field of the repeating time
trigger. -/
theorem xml_embeds_config (c : Config) (bp bd : String) :
    (∃ a b, create_task_scheduler_xml c bp bd
        = a ++ ("<Interval>PT" ++ toString c.interval_minutes
            ++ "M</Interval>") ++ b)
    ∧ (∃ a b, create_task_scheduler_xml c bp bd
        = a ++ ("<StartBoundary>2024-01-01T" ++ c.start_time
            ++ ":00</StartBoundary>") ++ b)
    ∧ (∃ a b, create_task_scheduler_xml c bp bd
        = a ++ ("<EndBoundary>2024-01-01T" ++ c.end_time
            ++ ":00</EndBoundary>") ++ b) := by
  have h0 : xmlHead = xmlSeg0 ++ "<Interval>PT" := rfl
  have h1 : xmlMid1
      = "M</Interval>" ++ xmlSeg1 ++ "<StartBoundary>2024-01-01T" := rfl
  have h2 : xmlMid2
      = ":00</StartBoundary>" ++ xmlSeg2 ++ "<EndBoundary>2024-01-01T" := rfl
  have h3 : xmlMid3 = ":00</EndBoundary>" ++ xmlSeg3 := rfl
  refine ⟨⟨xmlSeg0,
      xmlSeg1 ++ "<StartBoundary>2024-01-01T" ++ c.start_time ++ xmlMid2
        ++ c.end_time ++ xmlMid3 ++ bp ++ xmlMid4 ++ bd ++ xmlTail, ?_⟩,
    ⟨xmlSeg0 ++ "<Interval>PT" ++ toString c.interval_minutes
        ++ "M</Interval>" ++ xmlSeg1,
      xmlSeg2 ++ "<EndBoundary>2024-01-01T" ++ c.end_time ++ xmlMid3
        ++ bp ++ xmlMid4 ++ bd ++ xmlTail, ?_⟩,
    ⟨xmlSeg0 ++ "<Interval>PT" ++ toString c.interval_minutes
        ++ "M</Interval>" ++ xmlSeg1 ++ "<StartBoundary>2024-01-01T"
        ++ c.start_time ++ ":00</StartBoundary>" ++ xmlSeg2,
      xmlSeg3 ++ bp ++ xmlMid4 ++ bd ++ xmlTail, ?_⟩⟩ <;>
    simp only [create_task_scheduler_xml, h0, h1, h2, h3,
      String.append_assoc]

/-- C10: interactive reconfiguration stores any input with non-empty
strip verbatim as `start_time` (no format validation; `configure` then
persists it via `save_config`), and when the stored string does not
parse as `HH:MM`, every subsequent active-window check raises a parse
error — the check is not total over configs that `configure` can
produce. -/
theorem configure_unvalidated (c : Config) (s : String)
    (hne : pyStrip s ≠ "") (hbad : parseHM s = none) :
    (configureStartTime c s).start_time = s
    ∧ ∀ n, is_within_active_hours (configureStartTime c s) n = .error () := by
  have hcs : configureStartTime c s = { c with start_time := s } := by
    simp [configureStartTime, hne]
  refine ⟨by rw [hcs], ?_⟩
  intro n
  rw [hcs]
  unfold is_within_active_hours
  have hst : ({ c with start_time := s } : Config).start_time = s := rfl
  rw [hst, hbad]

theorem configure_unvalidated_witness :
    (configureStartTime defaultConfig "nonsense").start_time = "nonsense"
    ∧ is_within_active_hours (configureStartTime defaultConfig "nonsense")
        43200 = .error () := by
  have h := configure_unvalidated defaultConfig "nonsense" (by decide) rfl
  exact ⟨h.1, h.2 43200⟩

end WaterReminder
